import Mathlib

/-!
Verification of the core game logic of `window.py` (Noorain00/snakesgame).

The mutable fields of the `SnakeGame` class that the game logic reads or
writes are embedded as a Lean structure; the methods `update_grid_dimensions`,
`handle_resize`, `check_bounds_after_resize`, `reset_game`, `spawn_food`,
`handle_playing_events`, `update_game` and `game_over` are embedded as pure
functions on that structure.  Randomness (the `randint` draws of `spawn_food`
and the ambient-particle coin flip) is passed in explicitly; the two particle
pools are modelled by their sizes only, since no claim depends on particle
attributes, which are randomized decorative data.
-/

namespace Snake

/-- Grid positions and movement deltas are integer pixel pairs, as in the
Python source. -/
abbrev Pos : Type := Int × Int

/-- The states of the `GameState` enum in `window.py`. -/
inductive GameState where
  | MENU
  | PLAYING
  | PAUSED
  | GAME_OVER
  | SETTINGS
deriving DecidableEq

/-- The settings dictionary, with the keys of `load_settings`'s defaults. -/
structure Settings where
  base_speed : Nat
  speed_increase : Bool
  grid_visible : Bool
  particles : Bool
  sound : Bool
deriving DecidableEq

/-- `self.CELL_SIZE = 25`. -/
def CELL_SIZE : Nat := 25

/-- `self.MIN_WIDTH = 600`. -/
def MIN_WIDTH : Nat := 600

/-- `self.MIN_HEIGHT = 400`. -/
def MIN_HEIGHT : Nat := 400

/-- The mutable fields of the `SnakeGame` class that the game logic touches.
The particle pools are modelled by their sizes. -/
structure SnakeGame where
  WIDTH : Nat
  HEIGHT : Nat
  GRID_WIDTH : Nat
  GRID_HEIGHT : Nat
  state : GameState
  snake : List Pos
  direction : Pos
  next_direction : Pos
  food_pos : Pos
  score : Nat
  game_over_reason : String
  high_score : Nat
  particles : Nat
  food_particles : Nat
  settings : Settings
deriving DecidableEq

/-- `update_grid_dimensions`: grid size is floor division of the pixel size by
the cell size. -/
def update_grid_dimensions (s : SnakeGame) : SnakeGame :=
  { s with GRID_WIDTH := s.WIDTH / CELL_SIZE, GRID_HEIGHT := s.HEIGHT / CELL_SIZE }

/-- Python `range(0, stop, step)` for positive `step`: the multiples of `step`
below `stop`, in increasing order. -/
def pyRange (stop step : Nat) : List Nat :=
  (List.range ((stop + step - 1) / step)).map (fun k => k * step)

/-- Pixel position of a `randint` draw `(i, j)` of grid indices:
`(i * cell, j * cell)`. -/
def trialPos (cell : Nat) (t : Nat × Nat) : Pos :=
  (((t.1 * cell : Nat) : Int), ((t.2 * cell : Nat) : Int))

/-- The bounded random-retry loop of `spawn_food`.  `trials` is the stream of
`randint` draws `(i, j)` of grid indices; the loop returns the pixel position
of the first draw not occupied by the snake, or fails. -/
def first_free_trial (cell : Nat) (snake : List Pos) : List (Nat × Nat) → Option Pos
  | [] => none
  | t :: rest =>
    if trialPos cell t ∈ snake then first_free_trial cell snake rest
    else some (trialPos cell t)

/-- The exhaustive fallback scan of `spawn_food`:
`for x in range(0, WIDTH, CELL_SIZE)` outer, `for y in range(0, HEIGHT,
CELL_SIZE)` inner, returning the first cell not in the snake. -/
def fallback_scan (W H cell : Nat) (snake : List Pos) : Option Pos :=
  (pyRange W cell).findSome? (fun (x : Nat) =>
    (pyRange H cell).findSome? (fun (y : Nat) =>
      let p : Pos := ((x : Int), (y : Int))
      if p ∈ snake then none else some p))

/-- `spawn_food` on explicit data: up to 100 random draws, then the fallback
scan, then the fixed fallback `(CELL_SIZE, CELL_SIZE)`. -/
def spawn_food (W H cell : Nat) (snake : List Pos) (trials : List (Nat × Nat)) : Pos :=
  match first_free_trial cell snake (trials.take 100) with
  | some p => p
  | none =>
    match fallback_scan W H cell snake with
    | some p => p
    | none => ((cell : Int), (cell : Int))

/-- `spawn_food` as a method: it first calls `update_grid_dimensions` (a
self-mutation), then runs the trials and fallbacks against the current snake. -/
def spawn_food_st (s : SnakeGame) (trials : List (Nat × Nat)) : SnakeGame × Pos :=
  let s1 := update_grid_dimensions s
  (s1, spawn_food s1.WIDTH s1.HEIGHT CELL_SIZE s1.snake trials)

/-- `create_particles`: append `count` explosion particles when the particles
setting is on (the pool is modelled by its size). -/
def create_particles (s : SnakeGame) (count : Nat) : SnakeGame :=
  if s.settings.particles then { s with particles := s.particles + count } else s

/-- `create_food_particles`: with probability 0.1 per frame (the coin passed in
as `ambient`) append one ambient particle when the particles setting is on. -/
def create_food_particles (s : SnakeGame) (ambient : Bool) : SnakeGame :=
  if s.settings.particles then
    (if ambient then { s with food_particles := s.food_particles + 1 } else s)
  else s

/-- `save_high_score`: overwrite the record only when the score exceeds it. -/
def save_high_score (s : SnakeGame) : SnakeGame :=
  if s.score > s.high_score then { s with high_score := s.score } else s

/-- `game_over`: record the reason, persist the high score, enter `GAME_OVER`,
and burst particles at the head when the snake is non-empty. -/
def game_over (s : SnakeGame) (reason : String) : SnakeGame :=
  let s1 := { s with game_over_reason := reason }
  let s2 := save_high_score s1
  let s3 := { s2 with state := GameState.GAME_OVER }
  if s3.snake ≠ [] then create_particles s3 20 else s3

/-- `reset_game`: recompute the grid, centre a length-1 snake, zero the
direction and the buffered direction, spawn food, clear score, reason and the
particle pools. -/
def reset_game (s : SnakeGame) (trials : List (Nat × Nat)) : SnakeGame :=
  let s1 := update_grid_dimensions s
  let cx : Int := (((s1.GRID_WIDTH / 2) * CELL_SIZE : Nat) : Int)
  let cy : Int := (((s1.GRID_HEIGHT / 2) * CELL_SIZE : Nat) : Int)
  let s2 := { s1 with snake := [(cx, cy)], direction := ((0 : Int), (0 : Int)),
                      next_direction := ((0 : Int), (0 : Int)) }
  let sp := spawn_food_st s2 trials
  { sp.1 with food_pos := sp.2, score := 0, game_over_reason := "",
              particles := 0, food_particles := 0 }

/-- A position is inside the window: the bound check of
`check_bounds_after_resize` (`x < WIDTH and y < HEIGHT and x >= 0 and y >= 0`). -/
def InBounds (W H : Nat) (p : Pos) : Prop :=
  p.1 < (W : Int) ∧ p.2 < (H : Int) ∧ 0 ≤ p.1 ∧ 0 ≤ p.2

instance (W H : Nat) (p : Pos) : Decidable (InBounds W H p) :=
  inferInstanceAs (Decidable (p.1 < (W : Int) ∧ p.2 < (H : Int) ∧ 0 ≤ p.1 ∧ 0 ≤ p.2))

/-- `check_bounds_after_resize`: respawn food that left the window, keep only
the in-bounds snake segments, and end the game when none survive or the head
was cut. -/
def check_bounds_after_resize (s : SnakeGame) (trials : List (Nat × Nat)) : SnakeGame :=
  let s1 :=
    if s.food_pos.1 ≥ (s.WIDTH : Int) ∨ s.food_pos.2 ≥ (s.HEIGHT : Int) then
      let sp := spawn_food_st s trials
      { sp.1 with food_pos := sp.2 }
    else s
  let valid_snake := s1.snake.filter (fun seg => decide (InBounds s1.WIDTH s1.HEIGHT seg))
  if valid_snake = [] ∨ (s1.snake ≠ [] ∧ s1.snake.headI ∉ valid_snake) then
    game_over s1 "Screen resized - snake out of bounds!"
  else
    let s2 := { s1 with snake := valid_snake }
    if s2.snake = [] then game_over s2 "Screen resized - snake out of bounds!" else s2

/-- `handle_resize`: clamp to the minimum window size, snap both dimensions
down to multiples of the cell size, update the grid, and validate positions
only while PLAYING. -/
def handle_resize (s : SnakeGame) (new_width new_height : Nat)
    (trials : List (Nat × Nat)) : SnakeGame :=
  let w := (max new_width MIN_WIDTH / CELL_SIZE) * CELL_SIZE
  let h := (max new_height MIN_HEIGHT / CELL_SIZE) * CELL_SIZE
  let s1 := update_grid_dimensions { s with WIDTH := w, HEIGHT := h }
  if s1.state = GameState.PLAYING then check_bounds_after_resize s1 trials else s1

/-- The gameplay key events dispatched to `handle_playing_events`. -/
inductive PlayEvent where
  | escape
  | restartKey
  | up
  | down
  | left
  | right
  | other
deriving DecidableEq

/-- `handle_playing_events`: pause, restart, or buffer a turn; a movement key
is accepted only when the matching axis of the current direction is zero. -/
def handle_playing_events (s : SnakeGame) (ev : PlayEvent)
    (trials : List (Nat × Nat)) : SnakeGame :=
  match ev with
  | .escape => { s with state := GameState.PAUSED }
  | .restartKey => reset_game s trials
  | .up => if s.direction.2 = 0 then
      { s with next_direction := ((0 : Int), -(CELL_SIZE : Int)) } else s
  | .down => if s.direction.2 = 0 then
      { s with next_direction := ((0 : Int), (CELL_SIZE : Int)) } else s
  | .left => if s.direction.1 = 0 then
      { s with next_direction := (-(CELL_SIZE : Int), (0 : Int)) } else s
  | .right => if s.direction.1 = 0 then
      { s with next_direction := ((CELL_SIZE : Int), (0 : Int)) } else s
  | .other => s

/-- The direction committed at the top of `update_game`:
`self.direction = self.next_direction if self.next_direction != (0, 0) else
self.direction`. -/
def committed_direction (s : SnakeGame) : Pos :=
  if s.next_direction ≠ ((0 : Int), (0 : Int)) then s.next_direction else s.direction

/-- The movement section of `update_game`, reached when the committed direction
is non-zero; `head` is `self.snake[0]` and `s.direction` is already the
committed direction. -/
def step_move (s : SnakeGame) (trials : List (Nat × Nat)) (ambient : Bool)
    (head : Pos) : SnakeGame :=
  let new_head : Pos := (head.1 + s.direction.1, head.2 + s.direction.2)
  if new_head.1 < 0 ∨ new_head.1 ≥ (s.WIDTH : Int) ∨
      new_head.2 < 0 ∨ new_head.2 ≥ (s.HEIGHT : Int) then
    game_over s "Hit the wall!"
  else if new_head ∈ s.snake then
    game_over s "Ate yourself!"
  else
    let s1 := { s with snake := new_head :: s.snake }
    let s2 :=
      if new_head = s1.food_pos then
        let s3 := create_particles { s1 with score := s1.score + 1 } 15
        let sp := spawn_food_st s3 trials
        { sp.1 with food_pos := sp.2 }
      else
        { s1 with snake := s1.snake.dropLast }
    create_food_particles s2 ambient

/-- `update_game`: no-op unless PLAYING; commit the buffered direction; stop if
still motionless; otherwise move the snake.  (`self.snake[0]` is never reached
on an empty snake while the game's invariant holds, so the empty branch
returns the state unchanged.) -/
def update_game (s0 : SnakeGame) (trials : List (Nat × Nat)) (ambient : Bool) :
    SnakeGame :=
  if s0.state ≠ GameState.PLAYING then s0
  else
    let s := { s0 with direction := committed_direction s0 }
    if committed_direction s0 = ((0 : Int), (0 : Int)) then s
    else
      match s0.snake with
      | [] => s
      | head :: _ => step_move s trials ambient head

/-- The gameplay invariant of the snake body: non-empty, no duplicate
segments, all segments inside the window. -/
def SnakeInv (s : SnakeGame) : Prop :=
  s.snake ≠ [] ∧ s.snake.Nodup ∧ ∀ p ∈ s.snake, InBounds s.WIDTH s.HEIGHT p

instance (s : SnakeGame) : Decidable (SnakeInv s) :=
  inferInstanceAs (Decidable
    (s.snake ≠ [] ∧ s.snake.Nodup ∧ ∀ p ∈ s.snake, InBounds s.WIDTH s.HEIGHT p))

/-- The four movement directions. -/
inductive Dir where
  | up
  | down
  | left
  | right
deriving DecidableEq

/-- Pixel delta of a direction, as buffered by `handle_playing_events`. -/
def dirVec : Dir → Pos
  | .up => ((0 : Int), -(CELL_SIZE : Int))
  | .down => ((0 : Int), (CELL_SIZE : Int))
  | .left => (-(CELL_SIZE : Int), (0 : Int))
  | .right => ((CELL_SIZE : Int), (0 : Int))

/-- The key event requesting a given direction. -/
def dirEvent : Dir → PlayEvent
  | .up => .up
  | .down => .down
  | .left => .left
  | .right => .right

/-- Whether a direction moves along the vertical axis. -/
def isVertical : Dir → Bool
  | .up => true
  | .down => true
  | .left => false
  | .right => false

/-- Perpendicularity in the sense of claim C1: the requested direction changes
the axis on which the current direction is zero. -/
def Perpendicular (r d : Dir) : Prop := isVertical r ≠ isVertical d

instance (r d : Dir) : Decidable (Perpendicular r d) :=
  inferInstanceAs (Decidable (isVertical r ≠ isVertical d))

/-- Reversal of a direction. -/
def opposite : Dir → Dir
  | .up => .down
  | .down => .up
  | .left => .right
  | .right => .left

/-- The cells visited by the fallback scan of `spawn_food`, flattened in the
source's nesting order: outer loop over `x`, inner loop over `y`
(column-major). -/
def columnMajorCells (W H cell : Nat) : List Pos :=
  ((pyRange W cell).map (fun (x : Nat) =>
    (pyRange H cell).map (fun (y : Nat) => (((x : Int), (y : Int)) : Pos)))).flatten

/-- Modelled from the spec wording of claim C7 (not from the code): row-major
pixel order — all cells of one row (constant `y`) in increasing `x`, before
the next row. -/
def rowMajorCells (W H cell : Nat) : List Pos :=
  ((pyRange H cell).map (fun (y : Nat) =>
    (pyRange W cell).map (fun (x : Nat) => (((x : Int), (y : Int)) : Pos)))).flatten

/-! ### Basic lemmas about `game_over` and `update_game` -/

theorem game_over_state (s : SnakeGame) (r : String) :
    (game_over s r).state = GameState.GAME_OVER := by
  simp only [game_over, save_high_score, create_particles]
  split_ifs <;> rfl

theorem game_over_reason_eq (s : SnakeGame) (r : String) :
    (game_over s r).game_over_reason = r := by
  simp only [game_over, save_high_score, create_particles]
  split_ifs <;> rfl

theorem game_over_snake (s : SnakeGame) (r : String) :
    (game_over s r).snake = s.snake := by
  simp only [game_over, save_high_score, create_particles]
  split_ifs <;> rfl

theorem game_over_score (s : SnakeGame) (r : String) :
    (game_over s r).score = s.score := by
  simp only [game_over, save_high_score, create_particles]
  split_ifs <;> rfl

theorem game_over_food (s : SnakeGame) (r : String) :
    (game_over s r).food_pos = s.food_pos := by
  simp only [game_over, save_high_score, create_particles]
  split_ifs <;> rfl

theorem game_over_next_direction (s : SnakeGame) (r : String) :
    (game_over s r).next_direction = s.next_direction := by
  simp only [game_over, save_high_score, create_particles]
  split_ifs <;> rfl

theorem game_over_direction (s : SnakeGame) (r : String) :
    (game_over s r).direction = s.direction := by
  simp only [game_over, save_high_score, create_particles]
  split_ifs <;> rfl

theorem game_over_WIDTH (s : SnakeGame) (r : String) :
    (game_over s r).WIDTH = s.WIDTH := by
  simp only [game_over, save_high_score, create_particles]
  split_ifs <;> rfl

theorem game_over_HEIGHT (s : SnakeGame) (r : String) :
    (game_over s r).HEIGHT = s.HEIGHT := by
  simp only [game_over, save_high_score, create_particles]
  split_ifs <;> rfl

theorem game_over_settings (s : SnakeGame) (r : String) :
    (game_over s r).settings = s.settings := by
  simp only [game_over, save_high_score, create_particles]
  split_ifs <;> rfl

theorem game_over_food_particles (s : SnakeGame) (r : String) :
    (game_over s r).food_particles = s.food_particles := by
  simp only [game_over, save_high_score, create_particles]
  split_ifs <;> rfl

/-- On a PLAYING state with a non-empty snake and a non-zero committed
direction, `update_game` runs the movement section on the committed state. -/
theorem update_game_eq_step (s : SnakeGame) (tr : List (Nat × Nat)) (amb : Bool)
    (head : Pos) (t : List Pos)
    (hs : s.state = GameState.PLAYING) (hsn : s.snake = head :: t)
    (hd : committed_direction s ≠ ((0 : Int), (0 : Int))) :
    update_game s tr amb =
      step_move { s with direction := committed_direction s } tr amb head := by
  simp only [update_game, hs, hsn, hd]
  simp

/-! ### C1: turning -/

/-- C1: for every current direction d and requested direction r among the four
movement directions, a turn request is buffered into `next_direction` iff r is
perpendicular to d; a non-perpendicular request (in particular the reversal
r = -d) leaves the state, hence `next_direction`, unchanged. -/
theorem C1_turn_accepted_iff_perpendicular (s : SnakeGame) (tr : List (Nat × Nat))
    (d r : Dir) (hdir : s.direction = dirVec d) :
    ((Perpendicular r d →
        (handle_playing_events s (dirEvent r) tr).next_direction = dirVec r) ∧
      (¬ Perpendicular r d → handle_playing_events s (dirEvent r) tr = s)) ∧
    handle_playing_events s (dirEvent (opposite d)) tr = s := by
  cases d <;> cases r <;>
    simp [handle_playing_events, dirEvent, dirVec, Perpendicular, isVertical,
      opposite, hdir, CELL_SIZE]

/-! ### C4: wall collision -/

/-- C4: while PLAYING with a non-zero committed direction, a step whose new
head leaves `[0, WIDTH) × [0, HEIGHT)` ends the game with reason
"Hit the wall!". -/
theorem C4_wall_collision_game_over (s : SnakeGame) (tr : List (Nat × Nat))
    (amb : Bool) (head : Pos) (t : List Pos)
    (hs : s.state = GameState.PLAYING) (hsn : s.snake = head :: t)
    (hd : committed_direction s ≠ ((0 : Int), (0 : Int)))
    (hwall : head.1 + (committed_direction s).1 < 0 ∨
        head.1 + (committed_direction s).1 ≥ (s.WIDTH : Int) ∨
        head.2 + (committed_direction s).2 < 0 ∨
        head.2 + (committed_direction s).2 ≥ (s.HEIGHT : Int)) :
    (update_game s tr amb).state = GameState.GAME_OVER ∧
    (update_game s tr amb).game_over_reason = "Hit the wall!" := by
  rw [update_game_eq_step s tr amb head t hs hsn hd]
  unfold step_move
  rw [if_pos (by simpa using hwall)]
  exact ⟨game_over_state _ _, game_over_reason_eq _ _⟩

theorem create_food_particles_snake (s : SnakeGame) (amb : Bool) :
    (create_food_particles s amb).snake = s.snake := by
  simp only [create_food_particles]; split_ifs <;> rfl

theorem create_food_particles_score (s : SnakeGame) (amb : Bool) :
    (create_food_particles s amb).score = s.score := by
  simp only [create_food_particles]; split_ifs <;> rfl

theorem create_food_particles_state (s : SnakeGame) (amb : Bool) :
    (create_food_particles s amb).state = s.state := by
  simp only [create_food_particles]; split_ifs <;> rfl

theorem create_food_particles_food (s : SnakeGame) (amb : Bool) :
    (create_food_particles s amb).food_pos = s.food_pos := by
  simp only [create_food_particles]; split_ifs <;> rfl

theorem create_food_particles_WIDTH (s : SnakeGame) (amb : Bool) :
    (create_food_particles s amb).WIDTH = s.WIDTH := by
  simp only [create_food_particles]; split_ifs <;> rfl

theorem create_food_particles_HEIGHT (s : SnakeGame) (amb : Bool) :
    (create_food_particles s amb).HEIGHT = s.HEIGHT := by
  simp only [create_food_particles]; split_ifs <;> rfl

/-! ### C2: self-collision is checked before the tail is popped -/

/-- C2: while PLAYING with a non-zero committed direction and the whole snake
inside the window, a step whose new head coincides with any pre-step segment
(the tail included, since the check precedes the tail pop) ends the game with
reason "Ate yourself!". -/
theorem C2_self_collision_game_over (s : SnakeGame) (tr : List (Nat × Nat))
    (amb : Bool) (head : Pos) (t : List Pos)
    (hs : s.state = GameState.PLAYING) (hsn : s.snake = head :: t)
    (hd : committed_direction s ≠ ((0 : Int), (0 : Int)))
    (hb : ∀ p ∈ s.snake, InBounds s.WIDTH s.HEIGHT p)
    (hmem : (head.1 + (committed_direction s).1,
        head.2 + (committed_direction s).2) ∈ s.snake) :
    (update_game s tr amb).state = GameState.GAME_OVER ∧
    (update_game s tr amb).game_over_reason = "Ate yourself!" := by
  have hin := hb _ hmem
  simp only [InBounds] at hin
  rw [update_game_eq_step s tr amb head t hs hsn hd]
  unfold step_move
  rw [if_neg (by simp; omega)]
  rw [if_pos (by simpa using hmem)]
  exact ⟨game_over_state _ _, game_over_reason_eq _ _⟩

/-! ### C3: growth exactly on eating -/

/-- C3: for every executed step (PLAYING, non-zero committed direction, no wall
or self collision): when the new head equals the food position the snake
length grows by exactly one and the score by one; otherwise both length and
score are unchanged. -/
theorem C3_growth_iff_ate (s : SnakeGame) (tr : List (Nat × Nat))
    (amb : Bool) (head : Pos) (t : List Pos)
    (hs : s.state = GameState.PLAYING) (hsn : s.snake = head :: t)
    (hd : committed_direction s ≠ ((0 : Int), (0 : Int)))
    (hin : InBounds s.WIDTH s.HEIGHT
      (head.1 + (committed_direction s).1, head.2 + (committed_direction s).2))
    (hnmem : (head.1 + (committed_direction s).1,
        head.2 + (committed_direction s).2) ∉ s.snake) :
    ((head.1 + (committed_direction s).1, head.2 + (committed_direction s).2)
        = s.food_pos →
      (update_game s tr amb).snake.length = s.snake.length + 1 ∧
      (update_game s tr amb).score = s.score + 1) ∧
    ((head.1 + (committed_direction s).1, head.2 + (committed_direction s).2)
        ≠ s.food_pos →
      (update_game s tr amb).snake.length = s.snake.length ∧
      (update_game s tr amb).score = s.score) := by
  simp only [InBounds] at hin
  rw [update_game_eq_step s tr amb head t hs hsn hd]
  unfold step_move
  rw [if_neg (by simp; omega)]
  rw [if_neg (by simpa using hnmem)]
  constructor
  · intro heq
    simp [create_food_particles, create_particles, spawn_food_st,
      update_grid_dimensions, heq, hsn, apply_ite, ite_self]
  · intro hne
    simp [create_food_particles, create_particles, spawn_food_st,
      update_grid_dimensions, hne, hsn, apply_ite, ite_self]

/-! ### C10: failure atomicity of the step -/

/-- C10 (amended): when a step detects a wall or self collision, the snake,
score, food position, buffered direction, window size, settings and ambient
particle pool are unchanged; the committed direction is installed, and the
state machine enters GAME_OVER (the reason, high score and explosion particle
pool may also change). -/
theorem C10_failing_step_frame (s : SnakeGame) (tr : List (Nat × Nat))
    (amb : Bool) (head : Pos) (t : List Pos)
    (hs : s.state = GameState.PLAYING) (hsn : s.snake = head :: t)
    (hd : committed_direction s ≠ ((0 : Int), (0 : Int)))
    (hfail : (head.1 + (committed_direction s).1 < 0 ∨
        head.1 + (committed_direction s).1 ≥ (s.WIDTH : Int) ∨
        head.2 + (committed_direction s).2 < 0 ∨
        head.2 + (committed_direction s).2 ≥ (s.HEIGHT : Int)) ∨
      (head.1 + (committed_direction s).1,
        head.2 + (committed_direction s).2) ∈ s.snake) :
    (update_game s tr amb).snake = s.snake ∧
    (update_game s tr amb).score = s.score ∧
    (update_game s tr amb).food_pos = s.food_pos ∧
    (update_game s tr amb).next_direction = s.next_direction ∧
    (update_game s tr amb).WIDTH = s.WIDTH ∧
    (update_game s tr amb).HEIGHT = s.HEIGHT ∧
    (update_game s tr amb).settings = s.settings ∧
    (update_game s tr amb).food_particles = s.food_particles ∧
    (update_game s tr amb).direction = committed_direction s ∧
    (update_game s tr amb).state = GameState.GAME_OVER := by
  rw [update_game_eq_step s tr amb head t hs hsn hd]
  obtain ⟨r, hr⟩ : ∃ r, step_move { s with direction := committed_direction s }
      tr amb head = game_over { s with direction := committed_direction s } r := by
    simp only [step_move]
    split
    · exact ⟨"Hit the wall!", rfl⟩
    · next hnw =>
      rcases hfail with hw | hm
      · exact absurd (by simpa using hw) hnw
      · rw [if_pos (by simpa using hm)]
        exact ⟨"Ate yourself!", rfl⟩
  rw [hr]
  exact ⟨game_over_snake _ _, game_over_score _ _, game_over_food _ _,
    game_over_next_direction _ _, game_over_WIDTH _ _, game_over_HEIGHT _ _,
    game_over_settings _ _, game_over_food_particles _ _,
    game_over_direction _ _, game_over_state _ _⟩

/-! ### Lemmas about `spawn_food` -/

theorem lt_ceil_div_iff {stop step k : Nat} (hstep : 0 < step) :
    k < (stop + step - 1) / step ↔ k * step < stop := by
  rcases Nat.eq_zero_or_pos stop with rfl | hpos
  · have hz : (0 + step - 1) / step = 0 := Nat.div_eq_of_lt (by omega)
    rw [hz]
    simp [Nat.not_lt_zero]
  · constructor
    · intro h
      have h1 : (k + 1) * step ≤ ((stop + step - 1) / step) * step :=
        mul_le_mul_right' h step
      have h2 : ((stop + step - 1) / step) * step ≤ stop + step - 1 :=
        Nat.div_mul_le_self _ _
      have h3 : k * step + step ≤ stop + step - 1 := by
        calc k * step + step = (k + 1) * step := by ring
          _ ≤ stop + step - 1 := le_trans h1 h2
      obtain ⟨A, hA⟩ : ∃ A, k * step = A := ⟨_, rfl⟩
      rw [hA] at h3 ⊢
      omega
    · intro h
      have h4 : (k + 1) * step ≤ stop + step - 1 := by
        have h5 : k * step + step ≤ stop + step - 1 := by
          obtain ⟨A, hA⟩ : ∃ A, k * step = A := ⟨_, rfl⟩
          rw [hA] at h ⊢
          omega
        calc (k + 1) * step = k * step + step := by ring
          _ ≤ stop + step - 1 := h5
      have h6 : k + 1 ≤ (stop + step - 1) / step :=
        (Nat.le_div_iff_mul_le hstep).mpr h4
      omega

theorem mem_pyRange {stop step x : Nat} (hstep : 0 < step) :
    x ∈ pyRange stop step ↔ ∃ k, x = k * step ∧ x < stop := by
  simp only [pyRange, List.mem_map, List.mem_range]
  constructor
  · rintro ⟨k, hk, rfl⟩
    exact ⟨k, rfl, (lt_ceil_div_iff hstep).mp hk⟩
  · rintro ⟨k, rfl, hx⟩
    exact ⟨k, (lt_ceil_div_iff hstep).mpr hx, rfl⟩

theorem trial_pixel_lt {i cell W : Nat} (hc : 0 < cell) (hcW : cell ≤ W)
    (hi : i ≤ W / cell - 1) : i * cell < W := by
  have h1 : 1 ≤ W / cell := (Nat.le_div_iff_mul_le hc).mpr (by omega)
  have h2 : i + 1 ≤ W / cell := by omega
  have h3 : (i + 1) * cell ≤ W := (Nat.le_div_iff_mul_le hc).mp h2
  calc i * cell < i * cell + cell := Nat.lt_add_of_pos_right hc
    _ = (i + 1) * cell := by ring
    _ ≤ W := h3

theorem first_free_trial_some (cell : Nat) (snake : List Pos)
    (l : List (Nat × Nat)) (p : Pos) (h : first_free_trial cell snake l = some p) :
    p ∉ snake ∧ ∃ t ∈ l, p = trialPos cell t := by
  induction l with
  | nil => exact absurd h (by simp [first_free_trial])
  | cons t rest ih =>
    by_cases hm : trialPos cell t ∈ snake
    · rw [first_free_trial, if_pos hm] at h
      obtain ⟨h1, t', ht', h2⟩ := ih h
      exact ⟨h1, t', List.mem_cons_of_mem _ ht', h2⟩
    · rw [first_free_trial, if_neg hm] at h
      have h2 := Option.some_inj.mp h
      refine ⟨?_, t, List.mem_cons_self _ _, h2.symm⟩
      rw [h2] at hm
      exact hm

theorem first_free_trial_none_iff (cell : Nat) (snake : List Pos)
    (l : List (Nat × Nat)) :
    first_free_trial cell snake l = none ↔
      ∀ t ∈ l, trialPos cell t ∈ snake := by
  induction l with
  | nil => simp [first_free_trial]
  | cons t rest ih =>
    by_cases hm : trialPos cell t ∈ snake <;>
      simp [first_free_trial, hm, ih]

theorem fallback_scan_some (W H cell : Nat) (snake : List Pos) (p : Pos)
    (h : fallback_scan W H cell snake = some p) :
    p ∉ snake ∧ ∃ x ∈ pyRange W cell, ∃ y ∈ pyRange H cell,
      p = ((x : Int), (y : Int)) := by
  obtain ⟨x, hx, hx2⟩ := List.exists_of_findSome?_eq_some h
  obtain ⟨y, hy, hy2⟩ := List.exists_of_findSome?_eq_some hx2
  by_cases hm : (((x : Int), (y : Int)) : Pos) ∈ snake
  · simp [hm] at hy2
  · simp only [hm, if_false] at hy2
    rw [Option.some_inj] at hy2
    refine ⟨?_, x, hx, y, hy, hy2.symm⟩
    rw [hy2] at hm
    exact hm

theorem fallback_scan_none_iff (W H cell : Nat) (snake : List Pos) :
    fallback_scan W H cell snake = none ↔
      ∀ x ∈ pyRange W cell, ∀ y ∈ pyRange H cell,
        (((x : Int), (y : Int)) : Pos) ∈ snake := by
  simp only [fallback_scan, List.findSome?_eq_none_iff]
  constructor
  · intro h x hx y hy
    have h2 := h x hx y hy
    by_cases hm : (((x : Int), (y : Int)) : Pos) ∈ snake
    · exact hm
    · simp [hm] at h2
  · intro h x hx y hy
    simp [h x hx y hy]

/-! ### C6: food placement avoids the snake -/

/-- C6: for a grid with at least one cell each way and `randint` draws within
the Python bounds, when some grid cell (both coordinates multiples of the cell
size, inside the window) is free, `spawn_food` returns a free grid cell; and
when every grid cell is occupied it returns the fixed fallback
`(CELL_SIZE, CELL_SIZE)`. -/
theorem C6_spawn_food_avoids_snake (W H cell : Nat) (snake : List Pos)
    (trials : List (Nat × Nat)) (hc : 0 < cell) (hcW : cell ≤ W) (hcH : cell ≤ H)
    (htr : ∀ t ∈ trials, t.1 ≤ W / cell - 1 ∧ t.2 ≤ H / cell - 1) :
    ((∃ i j : Nat, i * cell < W ∧ j * cell < H ∧ trialPos cell (i, j) ∉ snake) →
      spawn_food W H cell snake trials ∉ snake ∧
      ∃ i j : Nat, i * cell < W ∧ j * cell < H ∧
        spawn_food W H cell snake trials = trialPos cell (i, j)) ∧
    ((∀ i j : Nat, i * cell < W → j * cell < H → trialPos cell (i, j) ∈ snake) →
      spawn_food W H cell snake trials = ((cell : Int), (cell : Int))) := by
  unfold spawn_food
  cases htry : first_free_trial cell snake (trials.take 100) with
  | some p =>
    obtain ⟨hp, t, ht, hpt⟩ := first_free_trial_some _ _ _ _ htry
    have hmem := List.take_subset 100 trials ht
    have htW : t.1 * cell < W := trial_pixel_lt hc hcW (htr t hmem).1
    have htH : t.2 * cell < H := trial_pixel_lt hc hcH (htr t hmem).2
    constructor
    · intro _
      exact ⟨hp, t.1, t.2, htW, htH, hpt⟩
    · intro hfull
      exact absurd (by rw [hpt]; exact hfull t.1 t.2 htW htH) hp
  | none =>
    cases hscan : fallback_scan W H cell snake with
    | some p =>
      obtain ⟨hp, x, hx, y, hy, hpxy⟩ := fallback_scan_some _ _ _ _ _ hscan
      obtain ⟨i, rfl, hxW⟩ := (mem_pyRange hc).mp hx
      obtain ⟨j, rfl, hyH⟩ := (mem_pyRange hc).mp hy
      constructor
      · intro _
        exact ⟨hp, i, j, hxW, hyH, hpxy⟩
      · intro hfull
        exact absurd (by rw [hpxy]; exact hfull i j hxW hyH) hp
    | none =>
      constructor
      · rintro ⟨i, j, hiW, hjH, hfree⟩
        exfalso
        have hx : i * cell ∈ pyRange W cell := (mem_pyRange hc).mpr ⟨i, rfl, hiW⟩
        have hy : j * cell ∈ pyRange H cell := (mem_pyRange hc).mpr ⟨j, rfl, hjH⟩
        exact hfree ((fallback_scan_none_iff _ _ _ _).mp hscan _ hx _ hy)
      · intro _
        rfl

/-! ### C7: order of the exhaustive fallback scan -/

theorem fallback_scan_eq_colMajor (W H cell : Nat) (snake : List Pos) :
    fallback_scan W H cell snake =
      (columnMajorCells W H cell).find? (fun p => decide (p ∉ snake)) := by
  unfold fallback_scan columnMajorCells
  rw [List.find?_flatten, List.findSome?_map]
  congr 1
  funext x
  simp only [Function.comp]
  generalize pyRange H cell = ys
  induction ys with
  | nil => rfl
  | cons y ys ih =>
    by_cases hm : (((x : Int), (y : Int)) : Pos) ∈ snake <;>
      simp [List.findSome?_cons, List.find?_cons, hm, ih]

/-- C7 fails as stated: on the 2-by-2 grid (W = H = 50, cell size 25) with the
snake occupying (0, 0) and a colliding random draw, the fallback of
`spawn_food` returns (0, 25), while the first free cell in the row-major order
claimed by the spec is (25, 0). -/
theorem C7_counterexample_not_row_major :
    spawn_food 50 50 25 [((0 : Int), (0 : Int))] [(0, 0)]
        = ((0 : Int), (25 : Int)) ∧
    (rowMajorCells 50 50 25).find?
        (fun p => decide (p ∉ [(((0 : Int), (0 : Int)) : Pos)]))
      = some ((25 : Int), (0 : Int)) ∧
    (((0 : Int), (25 : Int)) : Pos) ≠ ((25 : Int), (0 : Int)) := by
  refine ⟨?_, ?_, ?_⟩ <;> decide

/-! ### Lemmas about `check_bounds_after_resize` and `handle_resize` -/

theorem check_bounds_keep_still (s : SnakeGame) (tr : List (Nat × Nat))
    (hne : s.snake.filter (fun seg => decide (InBounds s.WIDTH s.HEIGHT seg)) ≠ [])
    (hhead : ¬(s.snake ≠ [] ∧ s.snake.headI ∉
      s.snake.filter (fun seg => decide (InBounds s.WIDTH s.HEIGHT seg)))) :
    (check_bounds_after_resize s tr).snake
        = s.snake.filter (fun seg => decide (InBounds s.WIDTH s.HEIGHT seg)) ∧
    (check_bounds_after_resize s tr).state = s.state ∧
    (check_bounds_after_resize s tr).WIDTH = s.WIDTH ∧
    (check_bounds_after_resize s tr).HEIGHT = s.HEIGHT := by
  simp only [check_bounds_after_resize]
  by_cases hf : s.food_pos.1 ≥ (s.WIDTH : Int) ∨ s.food_pos.2 ≥ (s.HEIGHT : Int)
  · rw [if_pos hf, if_neg (by exact not_or.mpr ⟨hne, hhead⟩), if_neg (by exact hne)]
    exact ⟨rfl, rfl, rfl, rfl⟩
  · rw [if_neg hf, if_neg (by exact not_or.mpr ⟨hne, hhead⟩), if_neg (by exact hne)]
    exact ⟨rfl, rfl, rfl, rfl⟩

theorem check_bounds_keep_eq (s : SnakeGame) (tr : List (Nat × Nat))
    (hf : ¬(s.food_pos.1 ≥ (s.WIDTH : Int) ∨ s.food_pos.2 ≥ (s.HEIGHT : Int)))
    (hne : s.snake.filter (fun seg => decide (InBounds s.WIDTH s.HEIGHT seg)) ≠ [])
    (hhead : ¬(s.snake ≠ [] ∧ s.snake.headI ∉
      s.snake.filter (fun seg => decide (InBounds s.WIDTH s.HEIGHT seg)))) :
    check_bounds_after_resize s tr =
      { s with snake :=
          s.snake.filter (fun seg => decide (InBounds s.WIDTH s.HEIGHT seg)) } := by
  simp only [check_bounds_after_resize]
  rw [if_neg hf, if_neg (by exact not_or.mpr ⟨hne, hhead⟩), if_neg (by exact hne)]

theorem check_bounds_fatal_state (s : SnakeGame) (tr : List (Nat × Nat))
    (hfatal : s.snake.filter (fun seg => decide (InBounds s.WIDTH s.HEIGHT seg)) = [] ∨
      (s.snake ≠ [] ∧ s.snake.headI ∉
        s.snake.filter (fun seg => decide (InBounds s.WIDTH s.HEIGHT seg)))) :
    (check_bounds_after_resize s tr).state = GameState.GAME_OVER ∧
    (check_bounds_after_resize s tr).game_over_reason
      = "Screen resized - snake out of bounds!" := by
  simp only [check_bounds_after_resize]
  by_cases hf : s.food_pos.1 ≥ (s.WIDTH : Int) ∨ s.food_pos.2 ≥ (s.HEIGHT : Int)
  · rw [if_pos hf, if_pos (by exact hfatal)]
    exact ⟨game_over_state _ _, game_over_reason_eq _ _⟩
  · rw [if_neg hf, if_pos (by exact hfatal)]
    exact ⟨game_over_state _ _, game_over_reason_eq _ _⟩

theorem check_bounds_food_kept (s : SnakeGame) (tr : List (Nat × Nat))
    (hf : ¬(s.food_pos.1 ≥ (s.WIDTH : Int) ∨ s.food_pos.2 ≥ (s.HEIGHT : Int))) :
    (check_bounds_after_resize s tr).food_pos = s.food_pos := by
  simp only [check_bounds_after_resize]
  rw [if_neg hf]
  split_ifs <;> simp [game_over_food]

theorem check_bounds_food_respawned (s : SnakeGame) (tr : List (Nat × Nat))
    (hf : s.food_pos.1 ≥ (s.WIDTH : Int) ∨ s.food_pos.2 ≥ (s.HEIGHT : Int)) :
    (check_bounds_after_resize s tr).food_pos = (spawn_food_st s tr).2 := by
  simp only [check_bounds_after_resize]
  rw [if_pos hf]
  split_ifs <;> simp [game_over_food]

/-! ### C8: resize while PLAYING -/

/-- C8: on a resize while PLAYING with snapped dimensions w and h: if the
in-bounds subsequence of the snake is non-empty and retains the head, it
replaces the snake (an order-preserving sublist) and play continues; if it is
empty or loses the head, the game ends with reason
"Screen resized - snake out of bounds!"; food inside the new bounds is kept,
food outside them is respawned. -/
theorem C8_resize_bounds (s : SnakeGame) (nw nh w h : Nat) (tr : List (Nat × Nat))
    (head : Pos) (t : List Pos)
    (hs : s.state = GameState.PLAYING) (hsn : s.snake = head :: t)
    (hw : w = (max nw MIN_WIDTH / CELL_SIZE) * CELL_SIZE)
    (hh : h = (max nh MIN_HEIGHT / CELL_SIZE) * CELL_SIZE)
    (hfx : 0 ≤ s.food_pos.1) (hfy : 0 ≤ s.food_pos.2) :
    ((s.snake.filter (fun seg => decide (InBounds w h seg)) ≠ [] ∧
        head ∈ s.snake.filter (fun seg => decide (InBounds w h seg))) →
      (handle_resize s nw nh tr).snake
          = s.snake.filter (fun seg => decide (InBounds w h seg)) ∧
      (handle_resize s nw nh tr).snake.Sublist s.snake ∧
      (handle_resize s nw nh tr).state = GameState.PLAYING) ∧
    ((s.snake.filter (fun seg => decide (InBounds w h seg)) = [] ∨
        head ∉ s.snake.filter (fun seg => decide (InBounds w h seg))) →
      (handle_resize s nw nh tr).state = GameState.GAME_OVER ∧
      (handle_resize s nw nh tr).game_over_reason
        = "Screen resized - snake out of bounds!") ∧
    (InBounds w h s.food_pos →
      (handle_resize s nw nh tr).food_pos = s.food_pos) ∧
    (¬ InBounds w h s.food_pos →
      (handle_resize s nw nh tr).food_pos
        = spawn_food w h CELL_SIZE s.snake tr) := by
  subst hw hh
  have hcall : handle_resize s nw nh tr =
      check_bounds_after_resize
        (update_grid_dimensions { s with
          WIDTH := (max nw MIN_WIDTH / CELL_SIZE) * CELL_SIZE,
          HEIGHT := (max nh MIN_HEIGHT / CELL_SIZE) * CELL_SIZE }) tr := by
    simp only [handle_resize]
    rw [if_pos (by exact hs)]
  rw [hcall]
  have hne' : ∀ w' h' : Nat,
      s.snake.filter (fun seg => decide (InBounds w' h' seg)) ≠ [] →
      head ∈ s.snake.filter (fun seg => decide (InBounds w' h' seg)) →
      ¬(s.snake ≠ [] ∧ s.snake.headI ∉
        s.snake.filter (fun seg => decide (InBounds w' h' seg))) := by
    intro w' h' _ hmem
    rw [hsn] at hmem ⊢
    intro hcon
    exact hcon.2 hmem
  refine ⟨?_, ?_, ?_, ?_⟩
  · rintro ⟨hne, hmem⟩
    obtain ⟨h1, h2, _, _⟩ := check_bounds_keep_still
      (update_grid_dimensions { s with
        WIDTH := (max nw MIN_WIDTH / CELL_SIZE) * CELL_SIZE,
        HEIGHT := (max nh MIN_HEIGHT / CELL_SIZE) * CELL_SIZE }) tr
      (by exact hne) (by exact hne' _ _ hne hmem)
    refine ⟨h1, ?_, ?_⟩
    · rw [h1]
      exact List.filter_sublist _
    · rw [h2]
      exact hs
  · intro hfatal
    refine check_bounds_fatal_state _ tr ?_
    rcases hfatal with h1 | h2
    · exact Or.inl (by exact h1)
    · rw [hsn] at h2
      refine Or.inr (by
        refine (?_ : s.snake ≠ [] ∧ s.snake.headI ∉ s.snake.filter _)
        rw [hsn]
        exact ⟨by simp, h2⟩)
  · intro hfin
    obtain ⟨hf1, hf2, _, _⟩ := hfin
    exact check_bounds_food_kept _ tr (by simp only [not_or, not_le]; exact ⟨hf1, hf2⟩)
  · intro hfout
    have hf : s.food_pos.1 ≥
        (((max nw MIN_WIDTH / CELL_SIZE) * CELL_SIZE : Nat) : Int) ∨
        s.food_pos.2 ≥ (((max nh MIN_HEIGHT / CELL_SIZE) * CELL_SIZE : Nat) : Int) := by
      simp only [InBounds, not_and_or, not_lt, not_le] at hfout
      rcases hfout with h | h | h | h
      · exact Or.inl h
      · exact Or.inr h
      · exact absurd hfx (not_le.mpr h)
      · exact absurd hfy (not_le.mpr h)
    exact check_bounds_food_respawned _ tr (by exact hf)

/-- A resize to already-valid dimensions (at least the minimum size, multiples
of the cell size) with the snake and food inside them only refreshes the
window and grid fields. -/
theorem handle_resize_fixed (s : SnakeGame) (nw nh : Nat) (tr : List (Nat × Nat))
    (head : Pos) (t : List Pos)
    (hs : s.state = GameState.PLAYING) (hsn : s.snake = head :: t)
    (hnw : MIN_WIDTH ≤ nw) (hnh : MIN_HEIGHT ≤ nh)
    (hdw : CELL_SIZE ∣ nw) (hdh : CELL_SIZE ∣ nh)
    (hseg : ∀ p ∈ s.snake, InBounds nw nh p)
    (hfood : ¬(s.food_pos.1 ≥ (nw : Int) ∨ s.food_pos.2 ≥ (nh : Int))) :
    handle_resize s nw nh tr
      = update_grid_dimensions { s with WIDTH := nw, HEIGHT := nh } := by
  have hw' : (max nw MIN_WIDTH / CELL_SIZE) * CELL_SIZE = nw := by
    rw [max_eq_left hnw, Nat.div_mul_cancel hdw]
  have hh' : (max nh MIN_HEIGHT / CELL_SIZE) * CELL_SIZE = nh := by
    rw [max_eq_left hnh, Nat.div_mul_cancel hdh]
  have hv : s.snake.filter (fun seg => decide (InBounds nw nh seg)) = s.snake :=
    List.filter_eq_self.mpr (fun a ha => decide_eq_true (hseg a ha))
  have hcall : handle_resize s nw nh tr =
      check_bounds_after_resize
        (update_grid_dimensions { s with WIDTH := nw, HEIGHT := nh }) tr := by
    simp only [handle_resize]
    rw [hw', hh']
    rw [if_pos (by exact hs)]
  rw [hcall]
  have heq := check_bounds_keep_eq
    (update_grid_dimensions { s with WIDTH := nw, HEIGHT := nh }) tr
    (by exact hfood)
    (by exact (by rw [hv, hsn]; simp :
      s.snake.filter (fun seg => decide (InBounds nw nh seg)) ≠ []))
    (by
      refine (?_ : ¬(s.snake ≠ [] ∧ s.snake.headI ∉
        s.snake.filter (fun seg => decide (InBounds nw nh seg))))
      rw [hv, hsn]
      intro hcon
      exact hcon.2 (by simp))
  rw [heq]
  have hv2 : (update_grid_dimensions { s with WIDTH := nw, HEIGHT := nh }).snake.filter
      (fun seg => decide (InBounds
        (update_grid_dimensions { s with WIDTH := nw, HEIGHT := nh }).WIDTH
        (update_grid_dimensions { s with WIDTH := nw, HEIGHT := nh }).HEIGHT seg))
      = s.snake := hv
  rw [hv2]
  rfl

/-! ### C9: resize idempotence -/

/-- C9: for a PLAYING state whose snake and food already lie inside the target
dimensions, which are already clamped and multiples of the cell size, resizing
twice equals resizing once, the grid is the expected one, and the snake and
food are unchanged. -/
theorem C9_resize_idempotent (s : SnakeGame) (nw nh : Nat) (tr tr' : List (Nat × Nat))
    (head : Pos) (t : List Pos)
    (hs : s.state = GameState.PLAYING) (hsn : s.snake = head :: t)
    (hnw : MIN_WIDTH ≤ nw) (hnh : MIN_HEIGHT ≤ nh)
    (hdw : CELL_SIZE ∣ nw) (hdh : CELL_SIZE ∣ nh)
    (hseg : ∀ p ∈ s.snake, InBounds nw nh p)
    (hfood : ¬(s.food_pos.1 ≥ (nw : Int) ∨ s.food_pos.2 ≥ (nh : Int))) :
    handle_resize (handle_resize s nw nh tr) nw nh tr' = handle_resize s nw nh tr ∧
    (handle_resize s nw nh tr).WIDTH = nw ∧
    (handle_resize s nw nh tr).HEIGHT = nh ∧
    (handle_resize s nw nh tr).GRID_WIDTH = nw / CELL_SIZE ∧
    (handle_resize s nw nh tr).GRID_HEIGHT = nh / CELL_SIZE ∧
    (handle_resize s nw nh tr).snake = s.snake ∧
    (handle_resize s nw nh tr).food_pos = s.food_pos := by
  have h1 : handle_resize s nw nh tr
      = update_grid_dimensions { s with WIDTH := nw, HEIGHT := nh } :=
    handle_resize_fixed s nw nh tr head t hs hsn hnw hnh hdw hdh hseg hfood
  have h2 : handle_resize
        (update_grid_dimensions { s with WIDTH := nw, HEIGHT := nh }) nw nh tr'
      = update_grid_dimensions
          { update_grid_dimensions { s with WIDTH := nw, HEIGHT := nh } with
            WIDTH := nw, HEIGHT := nh } :=
    handle_resize_fixed _ nw nh tr' head t (by exact hs) (by exact hsn)
      hnw hnh hdw hdh (by exact hseg) (by exact hfood)
  refine ⟨?_, ?_, ?_, ?_, ?_, ?_, ?_⟩
  · rw [h1, h2]
    rfl
  · rw [h1]
    rfl
  · rw [h1]
    rfl
  · rw [h1]
    rfl
  · rw [h1]
    rfl
  · rw [h1]
    rfl
  · rw [h1]
    rfl

/-! ### C5: the gameplay invariant -/

theorem center_lt {W : Nat} (hW : 0 < W) : (W / CELL_SIZE / 2) * CELL_SIZE < W := by
  rcases Nat.eq_zero_or_pos (W / CELL_SIZE) with hg | hg
  · rw [hg]
    simpa using hW
  · have h1 : W / CELL_SIZE / 2 < W / CELL_SIZE := Nat.div_lt_self hg (by norm_num)
    have h2 : (W / CELL_SIZE / 2) * CELL_SIZE < (W / CELL_SIZE) * CELL_SIZE :=
      mul_lt_mul_of_pos_right h1 (by norm_num [CELL_SIZE])
    exact lt_of_lt_of_le h2 (Nat.div_mul_le_self W CELL_SIZE)

theorem reset_game_inv (s : SnakeGame) (tr : List (Nat × Nat))
    (hW : 0 < s.WIDTH) (hH : 0 < s.HEIGHT) :
    SnakeInv (reset_game s tr) ∧ (reset_game s tr).state = s.state := by
  have hx : (s.WIDTH / CELL_SIZE / 2) * CELL_SIZE < s.WIDTH := center_lt hW
  have hy : (s.HEIGHT / CELL_SIZE / 2) * CELL_SIZE < s.HEIGHT := center_lt hH
  have hsn : (reset_game s tr).snake =
      [((((s.WIDTH / CELL_SIZE / 2) * CELL_SIZE : Nat) : Int),
        (((s.HEIGHT / CELL_SIZE / 2) * CELL_SIZE : Nat) : Int))] := rfl
  have hW' : (reset_game s tr).WIDTH = s.WIDTH := rfl
  have hH' : (reset_game s tr).HEIGHT = s.HEIGHT := rfl
  refine ⟨⟨?_, ?_, ?_⟩, rfl⟩
  · rw [hsn]
    simp
  · rw [hsn]
    simp
  · intro p hp
    rw [hsn] at hp
    rw [List.mem_singleton] at hp
    subst hp
    rw [hW', hH']
    exact ⟨Nat.cast_lt.mpr hx, Nat.cast_lt.mpr hy, Nat.cast_nonneg _, Nat.cast_nonneg _⟩

set_option maxRecDepth 4000 in
theorem update_game_inv (s : SnakeGame) (tr : List (Nat × Nat)) (amb : Bool)
    (hs : s.state = GameState.PLAYING) (hInv : SnakeInv s) :
    (update_game s tr amb).state = GameState.PLAYING →
      SnakeInv (update_game s tr amb) := by
  obtain ⟨hne, hnd, hb⟩ := hInv
  obtain ⟨head, t, hsn⟩ := List.exists_cons_of_ne_nil hne
  by_cases hd : committed_direction s = ((0 : Int), (0 : Int))
  · have heq : update_game s tr amb = { s with direction := committed_direction s } := by
      simp only [update_game]
      rw [if_neg (by simp [hs]), if_pos hd]
    rw [heq]
    intro _
    exact ⟨hne, hnd, hb⟩
  · rw [update_game_eq_step s tr amb head t hs hsn hd]
    by_cases hw : head.1 + (committed_direction s).1 < 0 ∨
        head.1 + (committed_direction s).1 ≥ (s.WIDTH : Int) ∨
        head.2 + (committed_direction s).2 < 0 ∨
        head.2 + (committed_direction s).2 ≥ (s.HEIGHT : Int)
    · have heq : step_move { s with direction := committed_direction s } tr amb head
          = game_over { s with direction := committed_direction s } "Hit the wall!" := by
        unfold step_move
        rw [if_pos (by exact hw)]
      rw [heq]
      intro hpl
      rw [game_over_state] at hpl
      exact absurd hpl (by simp)
    · by_cases hm : (head.1 + (committed_direction s).1,
          head.2 + (committed_direction s).2) ∈ s.snake
      · have heq : step_move { s with direction := committed_direction s } tr amb head
            = game_over { s with direction := committed_direction s } "Ate yourself!" := by
          unfold step_move
          rw [if_neg (by exact hw), if_pos (by exact hm)]
        rw [heq]
        intro hpl
        rw [game_over_state] at hpl
        exact absurd hpl (by simp)
      · intro _
        have hin : InBounds s.WIDTH s.HEIGHT (head.1 + (committed_direction s).1,
            head.2 + (committed_direction s).2) := by
          push_neg at hw
          exact ⟨hw.2.1, hw.2.2.2, hw.1, hw.2.2.1⟩
        have hkey : ((head.1 + (committed_direction s).1,
              head.2 + (committed_direction s).2) = s.food_pos →
              (step_move { s with direction := committed_direction s } tr amb head).snake
                = (head.1 + (committed_direction s).1,
                    head.2 + (committed_direction s).2) :: s.snake) ∧
            ((head.1 + (committed_direction s).1,
              head.2 + (committed_direction s).2) ≠ s.food_pos →
              (step_move { s with direction := committed_direction s } tr amb head).snake
                = ((head.1 + (committed_direction s).1,
                    head.2 + (committed_direction s).2) :: s.snake).dropLast) ∧
            (step_move { s with direction := committed_direction s } tr amb head).WIDTH
              = s.WIDTH ∧
            (step_move { s with direction := committed_direction s } tr amb head).HEIGHT
              = s.HEIGHT := by
          unfold step_move
          rw [if_neg (by exact hw), if_neg (by exact hm)]
          refine ⟨?_, ?_, ?_, ?_⟩
          · intro hfood
            simp [create_food_particles, create_particles, spawn_food_st,
              update_grid_dimensions, hfood, apply_ite, ite_self]
          · intro hfood
            simp [create_food_particles, create_particles, spawn_food_st,
              update_grid_dimensions, hfood, apply_ite, ite_self]
          · by_cases hfood : (head.1 + (committed_direction s).1,
                head.2 + (committed_direction s).2) = s.food_pos <;>
              simp [create_food_particles, create_particles, spawn_food_st,
                update_grid_dimensions, hfood, apply_ite, ite_self]
          · by_cases hfood : (head.1 + (committed_direction s).1,
                head.2 + (committed_direction s).2) = s.food_pos <;>
              simp [create_food_particles, create_particles, spawn_food_st,
                update_grid_dimensions, hfood, apply_ite, ite_self]
        by_cases hfood : (head.1 + (committed_direction s).1,
            head.2 + (committed_direction s).2) = s.food_pos
        · refine ⟨?_, ?_, ?_⟩
          · rw [hkey.1 hfood]
            simp
          · rw [hkey.1 hfood]
            exact List.nodup_cons.mpr ⟨hm, hnd⟩
          · intro p hp
            rw [hkey.2.2.1, hkey.2.2.2]
            rw [hkey.1 hfood] at hp
            rcases List.mem_cons.mp hp with rfl | hp'
            · exact hin
            · exact hb p hp'
        · refine ⟨?_, ?_, ?_⟩
          · rw [hkey.2.1 hfood]
            apply List.ne_nil_of_length_pos
            rw [List.length_dropLast]
            simp [hsn]
          · rw [hkey.2.1 hfood]
            exact (List.dropLast_sublist _).nodup (List.nodup_cons.mpr ⟨hm, hnd⟩)
          · intro p hp
            rw [hkey.2.2.1, hkey.2.2.2]
            rw [hkey.2.1 hfood] at hp
            have hp2 := (List.dropLast_sublist _).subset hp
            rcases List.mem_cons.mp hp2 with rfl | hp'
            · exact hin
            · exact hb p hp'

theorem handle_playing_events_inv (s : SnakeGame) (ev : PlayEvent)
    (tr : List (Nat × Nat)) (hInv : SnakeInv s)
    (hW : 0 < s.WIDTH) (hH : 0 < s.HEIGHT) :
    (handle_playing_events s ev tr).state = GameState.PLAYING →
      SnakeInv (handle_playing_events s ev tr) := by
  obtain ⟨hne, hnd, hb⟩ := hInv
  cases ev with
  | escape => exact fun _ => ⟨hne, hnd, hb⟩
  | restartKey => exact fun _ => (reset_game_inv s tr hW hH).1
  | up =>
    intro _
    simp only [handle_playing_events]
    split_ifs <;> exact ⟨hne, hnd, hb⟩
  | down =>
    intro _
    simp only [handle_playing_events]
    split_ifs <;> exact ⟨hne, hnd, hb⟩
  | left =>
    intro _
    simp only [handle_playing_events]
    split_ifs <;> exact ⟨hne, hnd, hb⟩
  | right =>
    intro _
    simp only [handle_playing_events]
    split_ifs <;> exact ⟨hne, hnd, hb⟩
  | other => exact fun _ => ⟨hne, hnd, hb⟩

theorem handle_resize_inv (s : SnakeGame) (nw nh : Nat) (tr : List (Nat × Nat))
    (hs : s.state = GameState.PLAYING) (hInv : SnakeInv s) :
    (handle_resize s nw nh tr).state = GameState.PLAYING →
      SnakeInv (handle_resize s nw nh tr) := by
  obtain ⟨hne, hnd, hb⟩ := hInv
  have hcall : handle_resize s nw nh tr =
      check_bounds_after_resize
        (update_grid_dimensions { s with
          WIDTH := (max nw MIN_WIDTH / CELL_SIZE) * CELL_SIZE,
          HEIGHT := (max nh MIN_HEIGHT / CELL_SIZE) * CELL_SIZE }) tr := by
    simp only [handle_resize]
    rw [if_pos (by exact hs)]
  rw [hcall]
  by_cases hfatal : s.snake.filter (fun seg =>
      decide (InBounds ((max nw MIN_WIDTH / CELL_SIZE) * CELL_SIZE)
        ((max nh MIN_HEIGHT / CELL_SIZE) * CELL_SIZE) seg)) = [] ∨
      (s.snake ≠ [] ∧ s.snake.headI ∉ s.snake.filter (fun seg =>
        decide (InBounds ((max nw MIN_WIDTH / CELL_SIZE) * CELL_SIZE)
          ((max nh MIN_HEIGHT / CELL_SIZE) * CELL_SIZE) seg)))
  · intro hpl
    obtain ⟨hgo, _⟩ := check_bounds_fatal_state
      (update_grid_dimensions { s with
        WIDTH := (max nw MIN_WIDTH / CELL_SIZE) * CELL_SIZE,
        HEIGHT := (max nh MIN_HEIGHT / CELL_SIZE) * CELL_SIZE }) tr (by exact hfatal)
    rw [hgo] at hpl
    exact absurd hpl (by simp)
  · intro _
    have hfatal2 := not_or.mp hfatal
    obtain ⟨h1, h2, h3, h4⟩ := check_bounds_keep_still
      (update_grid_dimensions { s with
        WIDTH := (max nw MIN_WIDTH / CELL_SIZE) * CELL_SIZE,
        HEIGHT := (max nh MIN_HEIGHT / CELL_SIZE) * CELL_SIZE }) tr
      (by exact hfatal2.1) (by exact hfatal2.2)
    refine ⟨?_, ?_, ?_⟩
    · rw [h1]
      exact hfatal2.1
    · rw [h1]
      exact List.Nodup.filter _ hnd
    · intro p hp
      rw [h1] at hp
      rw [h3, h4]
      exact of_decide_eq_true (List.mem_filter.mp hp).2

/-- C5: the gameplay invariant — non-empty snake, no duplicate segment, every
segment inside the window — is preserved by a step, an input event, a resize
and a reset whenever the state machine remains PLAYING; an operation that
would break it transitions to GAME_OVER instead, leaving the conclusion
vacuous for the non-PLAYING result. -/
theorem C5_invariant_preserved (s : SnakeGame)
    (tr tr' tr'' tr''' : List (Nat × Nat)) (amb : Bool) (ev : PlayEvent)
    (nw nh : Nat)
    (hs : s.state = GameState.PLAYING) (hInv : SnakeInv s)
    (hW : 0 < s.WIDTH) (hH : 0 < s.HEIGHT) :
    ((update_game s tr amb).state = GameState.PLAYING →
      SnakeInv (update_game s tr amb)) ∧
    ((handle_playing_events s ev tr').state = GameState.PLAYING →
      SnakeInv (handle_playing_events s ev tr')) ∧
    ((handle_resize s nw nh tr'').state = GameState.PLAYING →
      SnakeInv (handle_resize s nw nh tr'')) ∧
    ((reset_game s tr''').state = GameState.PLAYING →
      SnakeInv (reset_game s tr''')) :=
  ⟨update_game_inv s tr amb hs hInv,
   handle_playing_events_inv s ev tr' hInv hW hH,
   handle_resize_inv s nw nh tr'' hs hInv,
   fun _ => (reset_game_inv s tr''' hW hH).1⟩

/-- C7 (amended): when every bounded random trial collides with the occupied
set, `spawn_food` scans the grid cells in column-major pixel order (all cells
of one column of constant x, in increasing y, before the next column) and
returns the first free cell in that order, or the fixed fallback if none is
free. -/
theorem C7_fallback_scan_column_major (W H cell : Nat) (snake : List Pos)
    (trials : List (Nat × Nat))
    (hcoll : first_free_trial cell snake (trials.take 100) = none) :
    spawn_food W H cell snake trials =
      ((columnMajorCells W H cell).find? (fun p => decide (p ∉ snake))).getD
        ((cell : Int), (cell : Int)) := by
  unfold spawn_food
  rw [hcoll, fallback_scan_eq_colMajor]
  cases (columnMajorCells W H cell).find? (fun p => decide (p ∉ snake)) <;> rfl

/-! ### Concrete states for witnesses and counterexamples -/

/-- The default settings of `load_settings`. -/
def demoSettings : Settings := ⟨8, true, true, true, true⟩

/-- A PLAYING state on the default 1000x700 window: one-segment snake moving
right, food directly ahead. -/
def demoState : SnakeGame :=
  { WIDTH := 1000, HEIGHT := 700, GRID_WIDTH := 40, GRID_HEIGHT := 28,
    state := GameState.PLAYING, snake := [((500 : Int), (350 : Int))],
    direction := ((25 : Int), (0 : Int)), next_direction := ((0 : Int), (0 : Int)),
    food_pos := ((525 : Int), (350 : Int)), score := 0, game_over_reason := "",
    high_score := 0, particles := 0, food_particles := 0, settings := demoSettings }

/-- A PLAYING state whose snake forms a loop, moving up into its own tail. -/
def demoLoop : SnakeGame :=
  { demoState with
    snake := [((50 : Int), (50 : Int)), ((25 : Int), (50 : Int)),
              ((25 : Int), (25 : Int)), ((50 : Int), (25 : Int))],
    direction := ((0 : Int), (-25 : Int)) }

/-- A PLAYING state about to run into the left wall. -/
def demoWall : SnakeGame :=
  { demoState with
    snake := [((0 : Int), (0 : Int)), ((25 : Int), (0 : Int))],
    direction := ((-25 : Int), (0 : Int)),
    food_pos := ((75 : Int), (50 : Int)) }

/-- A PLAYING state moving up with a freshly buffered left turn that will hit
the left wall when committed. -/
def demoTurn : SnakeGame :=
  { demoState with
    snake := [((0 : Int), (25 : Int))],
    direction := ((0 : Int), (-25 : Int)),
    next_direction := ((-25 : Int), (0 : Int)) }

/-- C10 fails as stated: at `demoTurn`, the step detects a wall collision
(GAME_OVER results), yet the `direction` field — absent from the claim's list
of fields allowed to change — differs after the call, because the buffered
direction is committed before the collision checks. -/
theorem C10_counterexample_direction_changes :
    (update_game demoTurn [] false).state = GameState.GAME_OVER ∧
    ¬((update_game demoTurn [] false).direction = demoTurn.direction) := by
  decide

/-! ### Witnesses -/

theorem C1_witness :
    ((Perpendicular Dir.up Dir.right →
        (handle_playing_events demoState (dirEvent Dir.up) []).next_direction
          = dirVec Dir.up) ∧
      (¬ Perpendicular Dir.up Dir.right →
        handle_playing_events demoState (dirEvent Dir.up) [] = demoState)) ∧
    handle_playing_events demoState (dirEvent (opposite Dir.right)) [] = demoState :=
  C1_turn_accepted_iff_perpendicular demoState [] Dir.right Dir.up rfl

theorem C2_witness :
    (update_game demoLoop [] false).state = GameState.GAME_OVER ∧
    (update_game demoLoop [] false).game_over_reason = "Ate yourself!" :=
  C2_self_collision_game_over demoLoop [] false ((50 : Int), (50 : Int))
    [((25 : Int), (50 : Int)), ((25 : Int), (25 : Int)), ((50 : Int), (25 : Int))]
    rfl rfl (by decide) (by decide) (by decide)

theorem C3_witness :
    ((((525 : Int), (350 : Int)) : Pos) = demoState.food_pos →
      (update_game demoState [] false).snake.length = demoState.snake.length + 1 ∧
      (update_game demoState [] false).score = demoState.score + 1) ∧
    ((((525 : Int), (350 : Int)) : Pos) ≠ demoState.food_pos →
      (update_game demoState [] false).snake.length = demoState.snake.length ∧
      (update_game demoState [] false).score = demoState.score) :=
  C3_growth_iff_ate demoState [] false ((500 : Int), (350 : Int)) [] rfl rfl
    (by decide) (by decide) (by decide)

theorem C4_witness :
    (update_game demoWall [] false).state = GameState.GAME_OVER ∧
    (update_game demoWall [] false).game_over_reason = "Hit the wall!" :=
  C4_wall_collision_game_over demoWall [] false ((0 : Int), (0 : Int))
    [((25 : Int), (0 : Int))] rfl rfl (by decide) (by decide)

theorem C5_witness :
    ((update_game demoState [] false).state = GameState.PLAYING →
      SnakeInv (update_game demoState [] false)) ∧
    ((handle_playing_events demoState PlayEvent.up []).state = GameState.PLAYING →
      SnakeInv (handle_playing_events demoState PlayEvent.up [])) ∧
    ((handle_resize demoState 800 600 []).state = GameState.PLAYING →
      SnakeInv (handle_resize demoState 800 600 [])) ∧
    ((reset_game demoState []).state = GameState.PLAYING →
      SnakeInv (reset_game demoState [])) :=
  C5_invariant_preserved demoState [] [] [] [] false PlayEvent.up 800 600
    rfl (by decide) (by decide) (by decide)

theorem C6_witness :
    ((∃ i j : Nat, i * 25 < 100 ∧ j * 25 < 100 ∧
        trialPos 25 (i, j) ∉ [(((0 : Int), (0 : Int)) : Pos)]) →
      spawn_food 100 100 25 [(((0 : Int), (0 : Int)) : Pos)] [(0, 0), (1, 1)]
          ∉ [(((0 : Int), (0 : Int)) : Pos)] ∧
      ∃ i j : Nat, i * 25 < 100 ∧ j * 25 < 100 ∧
        spawn_food 100 100 25 [(((0 : Int), (0 : Int)) : Pos)] [(0, 0), (1, 1)]
          = trialPos 25 (i, j)) ∧
    ((∀ i j : Nat, i * 25 < 100 → j * 25 < 100 →
        trialPos 25 (i, j) ∈ [(((0 : Int), (0 : Int)) : Pos)]) →
      spawn_food 100 100 25 [(((0 : Int), (0 : Int)) : Pos)] [(0, 0), (1, 1)]
        = ((25 : Int), (25 : Int))) :=
  C6_spawn_food_avoids_snake 100 100 25 [(((0 : Int), (0 : Int)) : Pos)]
    [(0, 0), (1, 1)] (by decide) (by decide) (by decide) (by decide)

theorem C7_witness :
    spawn_food 50 50 25 [(((0 : Int), (0 : Int)) : Pos)] [(0, 0)] =
      ((columnMajorCells 50 50 25).find?
        (fun p => decide (p ∉ [(((0 : Int), (0 : Int)) : Pos)]))).getD
        ((25 : Int), (25 : Int)) :=
  C7_fallback_scan_column_major 50 50 25 [(((0 : Int), (0 : Int)) : Pos)]
    [(0, 0)] (by decide)

theorem C8_witness :
    ((demoState.snake.filter (fun seg => decide (InBounds 800 600 seg)) ≠ [] ∧
        (((500 : Int), (350 : Int)) : Pos) ∈
          demoState.snake.filter (fun seg => decide (InBounds 800 600 seg))) →
      (handle_resize demoState 800 600 []).snake
          = demoState.snake.filter (fun seg => decide (InBounds 800 600 seg)) ∧
      (handle_resize demoState 800 600 []).snake.Sublist demoState.snake ∧
      (handle_resize demoState 800 600 []).state = GameState.PLAYING) ∧
    ((demoState.snake.filter (fun seg => decide (InBounds 800 600 seg)) = [] ∨
        (((500 : Int), (350 : Int)) : Pos) ∉
          demoState.snake.filter (fun seg => decide (InBounds 800 600 seg))) →
      (handle_resize demoState 800 600 []).state = GameState.GAME_OVER ∧
      (handle_resize demoState 800 600 []).game_over_reason
        = "Screen resized - snake out of bounds!") ∧
    (InBounds 800 600 demoState.food_pos →
      (handle_resize demoState 800 600 []).food_pos = demoState.food_pos) ∧
    (¬ InBounds 800 600 demoState.food_pos →
      (handle_resize demoState 800 600 []).food_pos
        = spawn_food 800 600 CELL_SIZE demoState.snake []) :=
  C8_resize_bounds demoState 800 600 800 600 [] ((500 : Int), (350 : Int)) []
    rfl rfl (by decide) (by decide) (by decide) (by decide)

theorem C9_witness :
    handle_resize (handle_resize demoState 800 600 []) 800 600 []
        = handle_resize demoState 800 600 [] ∧
    (handle_resize demoState 800 600 []).WIDTH = 800 ∧
    (handle_resize demoState 800 600 []).HEIGHT = 600 ∧
    (handle_resize demoState 800 600 []).GRID_WIDTH = 800 / CELL_SIZE ∧
    (handle_resize demoState 800 600 []).GRID_HEIGHT = 600 / CELL_SIZE ∧
    (handle_resize demoState 800 600 []).snake = demoState.snake ∧
    (handle_resize demoState 800 600 []).food_pos = demoState.food_pos :=
  C9_resize_idempotent demoState 800 600 [] [] ((500 : Int), (350 : Int)) []
    rfl rfl (by decide) (by decide) (by decide) (by decide) (by decide) (by decide)

theorem C10_witness :
    (update_game demoWall [] false).snake = demoWall.snake ∧
    (update_game demoWall [] false).score = demoWall.score ∧
    (update_game demoWall [] false).food_pos = demoWall.food_pos ∧
    (update_game demoWall [] false).next_direction = demoWall.next_direction ∧
    (update_game demoWall [] false).WIDTH = demoWall.WIDTH ∧
    (update_game demoWall [] false).HEIGHT = demoWall.HEIGHT ∧
    (update_game demoWall [] false).settings = demoWall.settings ∧
    (update_game demoWall [] false).food_particles = demoWall.food_particles ∧
    (update_game demoWall [] false).direction = committed_direction demoWall ∧
    (update_game demoWall [] false).state = GameState.GAME_OVER :=
  C10_failing_step_frame demoWall [] false ((0 : Int), (0 : Int))
    [((25 : Int), (0 : Int))] rfl rfl (by decide) (by decide)

end Snake
